import Mathlib

/-!
Shallow embedding of the travel-planning repository's tool layer:

* `HotelSearchTool._run` (hotel_booking_agent_crewai/agent.py, lines 45-97):
  credential check, query construction, the price-extraction regex
  `\$([0-9]+[,.]?[0-9]*)`, mapping of the first five organic results, and
  JSON serialization of the result list (`json.dumps(results, indent=2)`).
* `HotelBookingTool._run` (agent.py, lines 129-144): booking-id synthesis
  `f"HB{date.today().strftime('%Y%m%d')}{hash(hotel_name) % 10000:04d}"`
  and the confirmation record.
* The `/plan` endpoint of `simple_executor.py` (lines 22-29): try/except
  wrapping of the delegated planner call.

External collaborators (the HTTP stack, CPython's randomized string hash,
the wall clock) are passed in as explicit parameters: the hash as an
arbitrary `String → Int`, today's date as a `PyDate` record carrying the
validity bounds that `datetime.date` enforces, and the network as a
function from the query actually sent to an outcome (either an exception
message, as caught by the `except` clause, or parsed JSON data).
-/

namespace TravelPlanning

/-- ASCII decimal digit test, the meaning of the regex class `[0-9]`. -/
def isDigitChar (c : Char) : Bool :=
  decide (48 ≤ c.toNat ∧ c.toNat ≤ 57)

/-- Decimal digits, least significant first, with an explicit fuel bound
so that the recursion is structural (the fuel never runs out when it
starts at the number itself). -/
def digitsRevAux : Nat → Nat → List Nat
  | _, 0 => []
  | 0, _ + 1 => []
  | fuel + 1, n + 1 => (n + 1) % 10 :: digitsRevAux fuel ((n + 1) / 10)

/-- Decimal digits of `n`, least significant first (empty for 0). -/
def digitsRev (n : Nat) : List Nat := digitsRevAux n n

/-- Decimal rendering of a natural number, most significant digit first. -/
def natDecimal (n : Nat) : List Char :=
  if n = 0 then ['0'] else (digitsRev n).reverse.map Nat.digitChar

/-- CPython's zero-padded decimal formatting `f"{n:0wd}"` / `strftime`
zero padding: pad the decimal rendering of `n` with leading zeros up to
width `w`. -/
def zeroPad (w : Nat) (n : Nat) : List Char :=
  let ds := natDecimal n
  if ds.length < w then List.replicate (w - ds.length) '0' ++ ds else ds

/-- Numeric value denoted by a string of decimal digits. -/
def decValue (cs : List Char) : Nat :=
  cs.foldl (fun a c => 10 * a + (c.toNat - 48)) 0

/-- A `datetime.date` value: CPython enforces `MINYEAR = 1 ≤ year ≤ 9999 =
MAXYEAR`, `1 ≤ month ≤ 12`, `1 ≤ day ≤ 31`. -/
structure PyDate where
  year : Nat
  month : Nat
  day : Nat
  year_pos : 1 ≤ year
  year_le : year ≤ 9999
  month_pos : 1 ≤ month
  month_le : month ≤ 12
  day_pos : 1 ≤ day
  day_le : day ≤ 31

/-- `date.strftime('%Y%m%d')`: zero-padded year (width 4), month and day
(width 2). -/
def strftimeYMD (d : PyDate) : List Char :=
  zeroPad 4 d.year ++ zeroPad 2 d.month ++ zeroPad 2 d.day

/-- `date.isoformat()`: `YYYY-MM-DD`. -/
def isoformatDate (d : PyDate) : String :=
  String.mk (zeroPad 4 d.year) ++ "-" ++ String.mk (zeroPad 2 d.month) ++ "-"
    ++ String.mk (zeroPad 2 d.day)

/-! ### The price-extraction regex

`re.search(r"\$([0-9]+[,.]?[0-9]*)", snippet)` (agent.py line 81): find the
leftmost `$` that is followed by at least one digit; capture group 1 is the
maximal digit run, then optionally one `,` or `.` followed by the maximal
digit run after it (greedy matching; every later regex piece can match the
empty string, so no backtracking changes the result). -/

/-- Split a character list into its maximal leading digit run and the rest
(the semantics of a greedy `[0-9]+` / `[0-9]*`). -/
def takeDigits : List Char → List Char × List Char
  | [] => ([], [])
  | c :: cs =>
    if isDigitChar c then (c :: (takeDigits cs).1, (takeDigits cs).2)
    else ([], c :: cs)

/-- The optional `[,.]?[0-9]*` tail of capture group 1, matched right after
the leading digit run. -/
def priceSepPart : List Char → List Char
  | [] => []
  | c :: r2 => if c = ',' || c = '.' then c :: (takeDigits r2).1 else []

/-- Capture group 1 of `([0-9]+[,.]?[0-9]*)` at the position right after a
`$`, or `none` when `[0-9]+` fails (no leading digit). -/
def priceGroupAt (cs : List Char) : Option (List Char) :=
  let p := takeDigits cs
  if p.1 = [] then none else some (p.1 ++ priceSepPart p.2)

/-- `re.search` with the price pattern: scan left to right for a `$` at
which group 1 matches; return the leftmost group-1 match. -/
def searchPrice : List Char → Option (List Char)
  | [] => none
  | c :: cs =>
    if c = '$' then
      match priceGroupAt cs with
      | some g => some g
      | none => searchPrice cs
    else searchPrice cs

/-- The estimated-cost value stored for a snippet (agent.py lines 78-92):
`f"${price_match.group(1)} USD"` on a match, the literal `"N/A"` otherwise. -/
def extract_cost (snippet : String) : String :=
  match searchPrice snippet.data with
  | some g => "$" ++ String.mk g ++ " USD"
  | none => "N/A"

/-- Spec-side reading of "the snippet contains a `$`-digit pattern": some
`$` in the text is immediately followed by a decimal digit. Used only to
compare the regex's behavior against the spec's wording. -/
def dollarDigitOccurs (s : List Char) : Prop :=
  ∃ pre post : List Char, ∃ d : Char,
    s = pre ++ '$' :: d :: post ∧ isDigitChar d = true

/-! ### The search tool -/

/-- The free-text query built by `HotelSearchTool._run` (agent.py lines
52-56). -/
def build_query (location check_in check_out budget : String) : String :=
  let base := "Budget friendly hotels in " ++ location ++ " from " ++ check_in
    ++ " to " ++ check_out
  if budget ≠ "any" then base ++ " " ++ budget ++ " hotels" else base

/-- One element of the provider's `"organic"` array; each of `title`,
`link`, `snippet` may be absent (the code reads them with
`result.get(key, "")`). -/
structure SerperResult where
  title : Option String
  link : Option String
  snippet : Option String
  deriving DecidableEq

/-- The parsed JSON body of a successful provider response; the
`"organic"` key may be absent. -/
structure SerperData where
  organic : Option (List SerperResult)
  deriving DecidableEq

/-- The record appended for each processed organic result (agent.py lines
84-93). -/
structure SearchResultItem where
  name : String
  description : String
  link : String
  location : String
  check_in : String
  check_out : String
  budget : String
  estimated_cost_usd : String
  deriving DecidableEq

/-- Build one `SearchResultItem` from one organic result (agent.py lines
77-93): `title → name`, `snippet → description`, `link → link`, echo of the
request fields, and the extracted cost. -/
def mkSearchItem (r : SerperResult) (location check_in check_out budget : String) :
    SearchResultItem :=
  let snippet := r.snippet.getD ""
  { name := r.title.getD ""
    description := snippet
    link := r.link.getD ""
    location := location
    check_in := check_in
    check_out := check_out
    budget := budget
    estimated_cost_usd := extract_cost snippet }

/-- The result list assembled by `HotelSearchTool._run` (agent.py lines
74-93): empty when `"organic"` is absent, otherwise the first five organic
results mapped through `mkSearchItem`, in order. -/
def search_items (data : SerperData) (location check_in check_out budget : String) :
    List SearchResultItem :=
  match data.organic with
  | none => []
  | some results =>
      (results.take 5).map (fun r => mkSearchItem r location check_in check_out budget)

/-! ### JSON serialization (`json.dumps(..., indent=2)`, defaults:
`ensure_ascii=True`) -/

/-- One hex digit (lowercase, as CPython emits in `\uXXXX`). -/
def hexChar (n : Nat) : Char := Nat.digitChar (n % 16)

/-- A `\uXXXX` escape for a code unit. -/
def uEscape (n : Nat) : List Char :=
  ['\\', 'u', hexChar (n / 4096), hexChar (n / 256), hexChar (n / 16), hexChar n]

/-- CPython `json` escaping of one character with `ensure_ascii=True`:
the two-character escapes for quote, backslash and the common control
characters, `\uXXXX` for other control and all non-ASCII characters, with
surrogate pairs above the basic plane. -/
def jsonEscapeChar (c : Char) : List Char :=
  if c = '"' then ['\\', '"']
  else if c = '\\' then ['\\', '\\']
  else if c = '\n' then ['\\', 'n']
  else if c = '\t' then ['\\', 't']
  else if c = '\r' then ['\\', 'r']
  else if c.toNat = 8 then ['\\', 'b']
  else if c.toNat = 12 then ['\\', 'f']
  else if c.toNat < 32 then uEscape c.toNat
  else if c.toNat < 128 then [c]
  else if c.toNat < 65536 then uEscape c.toNat
  else uEscape (55296 + (c.toNat - 65536) / 1024)
    ++ uEscape (56320 + (c.toNat - 65536) % 1024)

/-- A JSON string literal for `s`. -/
def jsonString (s : String) : String :=
  "\"" ++ String.mk (s.data.map jsonEscapeChar).flatten ++ "\""

/-- Key order of the per-hotel dict (agent.py lines 84-93); `json.dumps`
preserves insertion order. -/
def itemFields (it : SearchResultItem) : List (String × String) :=
  [("name", it.name), ("description", it.description), ("link", it.link),
   ("location", it.location), ("check_in", it.check_in),
   ("check_out", it.check_out), ("budget", it.budget),
   ("estimated_cost_usd", it.estimated_cost_usd)]

/-- One result dict rendered at list-element depth under `indent=2`. -/
def dumpItem (it : SearchResultItem) : String :=
  "  \x7b\n"
    ++ String.intercalate ",\n"
      ((itemFields it).map (fun kv => "    " ++ jsonString kv.1 ++ ": " ++ jsonString kv.2))
    ++ "\n  \x7d"

/-- `json.dumps(results, indent=2)` for the result list; the empty list
renders as `"[]"`. -/
def dumpItems (items : List SearchResultItem) : String :=
  match items with
  | [] => "[]"
  | _ => "[\n" ++ String.intercalate ",\n" (items.map dumpItem) ++ "\n]"

/-- Outcome of the guarded block (agent.py lines 68-97): either some
exception escaped `requests.post` / `raise_for_status` / `.json()` and was
caught (carrying `str(e)`), or a parsed JSON body was obtained. -/
inductive NetResult where
  | exn (msg : String)
  | ok (data : SerperData)

/-- What a call to `HotelSearchTool._run` produces: the returned string and
whether the external search request was issued at all. -/
structure SearchOutcome where
  result : String
  network_called : Bool
  deriving DecidableEq

/-- `HotelSearchTool._run` (agent.py lines 45-97). `serper_api_key` is
`os.getenv("SERPER_API_KEY")` (`none` when unset); the guard is Python's
truthiness test `if not serper_api_key`, so `none` and the empty string
both short-circuit before any network activity. `net` maps the query
actually sent to the outcome of the guarded block. -/
def hotel_search_run (serper_api_key : Option String) (net : String → NetResult)
    (location check_in check_out budget : String) : SearchOutcome :=
  if (serper_api_key.getD "").isEmpty then
    { result := "SERPER_API_KEY not found in environment variables"
      network_called := false }
  else
    match net (build_query location check_in check_out budget) with
    | .exn e => { result := "Error searching for hotels: " ++ e, network_called := true }
    | .ok data =>
      { result := dumpItems (search_items data location check_in check_out budget)
        network_called := true }

/-! ### The booking tool -/

/-- The synthesized booking id (agent.py line 132):
`f"HB{date.today().strftime('%Y%m%d')}{hash(hotel_name) % 10000:04d}"`.
`pyhash` stands for CPython's `hash` on strings; Python's `%` on a positive
modulus is `Int.emod`. -/
def hotel_booking_id (pyhash : String → Int) (today : PyDate) (hotel_name : String) :
    String :=
  "HB" ++ String.mk (strftimeYMD today)
    ++ String.mk (zeroPad 4 (pyhash hotel_name % 10000).toNat)

/-- The booking dict returned by `HotelBookingTool._run` (agent.py lines
134-142). -/
structure BookingConfirmation where
  booking_id : String
  hotel_name : String
  check_in : String
  check_out : String
  guests : Int
  status : String
  booking_date : String
  deriving DecidableEq

/-- `HotelBookingTool._run` (agent.py lines 129-144), up to serialization:
builds the booking dict. No input is validated and no external system is
consulted; the function is total in all arguments. -/
def hotel_booking_run (pyhash : String → Int) (today : PyDate)
    (hotel_name check_in check_out : String) (guests : Int) : BookingConfirmation :=
  { booking_id := hotel_booking_id pyhash today hotel_name
    hotel_name := hotel_name
    check_in := check_in
    check_out := check_out
    guests := guests
    status := "confirmed"
    booking_date := isoformatDate today }

/-- `json.dumps(booking, indent=2)` (agent.py line 144). -/
def dumpBooking (b : BookingConfirmation) : String :=
  "\x7b\n"
    ++ String.intercalate ",\n"
      [ "  " ++ jsonString "booking_id" ++ ": " ++ jsonString b.booking_id,
        "  " ++ jsonString "hotel_name" ++ ": " ++ jsonString b.hotel_name,
        "  " ++ jsonString "check_in" ++ ": " ++ jsonString b.check_in,
        "  " ++ jsonString "check_out" ++ ": " ++ jsonString b.check_out,
        "  " ++ jsonString "guests" ++ ": " ++ toString b.guests,
        "  " ++ jsonString "status" ++ ": " ++ jsonString b.status,
        "  " ++ jsonString "booking_date" ++ ": " ++ jsonString b.booking_date ]
    ++ "\n\x7d"

/-- The string actually returned by `HotelBookingTool._run`. -/
def hotel_booking_run_str (pyhash : String → Int) (today : PyDate)
    (hotel_name check_in check_out : String) (guests : Int) : String :=
  dumpBooking (hotel_booking_run pyhash today hotel_name check_in check_out guests)

/-! ### The `/plan` endpoint (simple_executor.py lines 22-29) -/

/-- Outcome of the delegated `travel_planner.plan_trip(message)` call:
either a plan string, or an exception carrying `str(e)`. -/
inductive PlannerOutcome where
  | ok (plan : String)
  | exn (msg : String)

/-- The `HTTPException(status_code=500, detail=...)` raised on failure. -/
structure HTTPError where
  status_code : Nat
  detail : String
  deriving DecidableEq

/-- The success body `{"plan": plan}`. -/
structure PlanResponse where
  plan : String
  deriving DecidableEq

/-- The `/plan` handler: try the delegated planner; on success wrap the
plan, on any exception raise a 500 with `f"Error: {str(e)}"` as detail. -/
def plan_trip (planner : String → PlannerOutcome) (message : String) :
    Except HTTPError PlanResponse :=
  match planner message with
  | .ok p => .ok { plan := p }
  | .exn e => .error { status_code := 500, detail := "Error: " ++ e }

/-! ### Helper lemmas: decimal rendering and zero padding -/

theorem digitsRevAux_fuel (fuel : Nat) :
    ∀ fuel2 n, n ≤ fuel → n ≤ fuel2 →
      digitsRevAux fuel n = digitsRevAux fuel2 n := by
  induction fuel using Nat.strong_induction_on with
  | _ fuel ih =>
    intro fuel2 n h1 h2
    match n with
    | 0 =>
      cases fuel <;> cases fuel2 <;> rfl
    | m + 1 =>
      match fuel, fuel2 with
      | f + 1, f2 + 1 =>
        rw [digitsRevAux, digitsRevAux]
        have hdiv : (m + 1) / 10 ≤ f := by omega
        have hdiv2 : (m + 1) / 10 ≤ f2 := by omega
        rw [ih f (by omega) f2 _ hdiv hdiv2]

theorem digitsRev_succ (n : Nat) :
    digitsRev (n + 1) = (n + 1) % 10 :: digitsRev ((n + 1) / 10) := by
  show digitsRevAux (n + 1) (n + 1) =
    (n + 1) % 10 :: digitsRevAux ((n + 1) / 10) ((n + 1) / 10)
  rw [digitsRevAux]
  rw [digitsRevAux_fuel n ((n + 1) / 10) ((n + 1) / 10) (by omega) (by omega)]

theorem digitsRev_length_le (w : Nat) :
    ∀ n, n < 10 ^ w → (digitsRev n).length ≤ w := by
  induction w with
  | zero =>
    intro n h
    interval_cases n
    simp [digitsRev, digitsRevAux]
  | succ w ih =>
    intro n h
    match n with
    | 0 => simp [digitsRev, digitsRevAux]
    | m + 1 =>
      rw [digitsRev_succ]
      simp only [List.length_cons]
      have hdiv : (m + 1) / 10 < 10 ^ w := by
        apply Nat.div_lt_of_lt_mul
        calc m + 1 < 10 ^ (w + 1) := h
          _ = 10 * 10 ^ w := by ring
      exact Nat.succ_le_succ (ih _ hdiv)

theorem digitsRev_lt_ten : ∀ n, ∀ x ∈ digitsRev n, x < 10 := by
  intro n
  induction n using Nat.strong_induction_on with
  | _ n ih =>
    match n with
    | 0 => intro x hx; simp [digitsRev, digitsRevAux] at hx
    | m + 1 =>
      intro x hx
      rw [digitsRev_succ] at hx
      rcases List.mem_cons.mp hx with h | h
      · subst h; exact Nat.mod_lt _ (by omega)
      · exact ih ((m + 1) / 10) (Nat.div_lt_self (by omega) (by omega)) x h

theorem decValue_append_singleton (xs : List Char) (c : Char) :
    decValue (xs ++ [c]) = 10 * decValue xs + (c.toNat - 48) := by
  simp [decValue, List.foldl_append]

theorem digitChar_toNat (d : Nat) (h : d < 10) : (Nat.digitChar d).toNat = 48 + d := by
  interval_cases d <;> decide

theorem isDigitChar_digitChar (d : Nat) (h : d < 10) :
    isDigitChar (Nat.digitChar d) = true := by
  interval_cases d <;> decide

theorem decValue_digitsRev :
    ∀ n, decValue ((digitsRev n).reverse.map Nat.digitChar) = n := by
  intro n
  induction n using Nat.strong_induction_on with
  | _ n ih =>
    match n with
    | 0 => simp [digitsRev, digitsRevAux, decValue]
    | m + 1 =>
      rw [digitsRev_succ]
      simp only [List.reverse_cons, List.map_append, List.map_cons, List.map_nil]
      rw [decValue_append_singleton]
      rw [ih ((m + 1) / 10) (Nat.div_lt_self (by omega) (by omega))]
      rw [digitChar_toNat _ (Nat.mod_lt _ (by omega))]
      omega

theorem decValue_natDecimal (n : Nat) : decValue (natDecimal n) = n := by
  by_cases h : n = 0
  · subst h; decide
  · rw [natDecimal, if_neg h]
    exact decValue_digitsRev n

theorem decValue_cons_zero (xs : List Char) : decValue ('0' :: xs) = decValue xs := by
  have h : (10 * 0 + ('0'.toNat - 48)) = 0 := by decide
  simp only [decValue, List.foldl_cons]
  rw [h]

theorem decValue_replicate_zero (k : Nat) (xs : List Char) :
    decValue (List.replicate k '0' ++ xs) = decValue xs := by
  induction k with
  | zero => rfl
  | succ k ih => rw [List.replicate_succ, List.cons_append, decValue_cons_zero, ih]

theorem decValue_zeroPad (w n : Nat) : decValue (zeroPad w n) = n := by
  simp only [zeroPad]
  split
  · rw [decValue_replicate_zero, decValue_natDecimal]
  · exact decValue_natDecimal n

theorem natDecimal_length_le (w n : Nat) (hw : 1 ≤ w) (h : n < 10 ^ w) :
    (natDecimal n).length ≤ w := by
  by_cases h0 : n = 0
  · subst h0; simpa [natDecimal] using hw
  · rw [natDecimal, if_neg h0]
    simpa using digitsRev_length_le w n h

theorem zeroPad_length (w n : Nat) (hw : 1 ≤ w) (h : n < 10 ^ w) :
    (zeroPad w n).length = w := by
  have hle := natDecimal_length_le w n hw h
  simp only [zeroPad]
  split
  · simp only [List.length_append, List.length_replicate]
    omega
  · omega

theorem natDecimal_digits (n : Nat) : ∀ c ∈ natDecimal n, isDigitChar c = true := by
  by_cases h0 : n = 0
  · subst h0; intro c hc; simp [natDecimal] at hc; subst hc; decide
  · rw [natDecimal, if_neg h0]
    intro c hc
    simp only [List.mem_map, List.mem_reverse] at hc
    obtain ⟨d, hd, rfl⟩ := hc
    exact isDigitChar_digitChar d (digitsRev_lt_ten n d hd)

theorem zeroPad_digits (w n : Nat) : ∀ c ∈ zeroPad w n, isDigitChar c = true := by
  simp only [zeroPad]
  split
  · intro c hc
    rcases List.mem_append.mp hc with h | h
    · have := List.eq_of_mem_replicate h; subst this; decide
    · exact natDecimal_digits n c h
  · exact natDecimal_digits n

theorem length_mkString (l : List Char) : (String.mk l).length = l.length := rfl

theorem hb_append (a b : List Char) :
    ("HB" ++ String.mk a ++ String.mk b) = String.mk ('H' :: 'B' :: (a ++ b)) := by
  have h : "HB" = String.mk ['H', 'B'] := by decide
  rw [h]
  rfl

/-! ### Helper lemmas: the price regex -/

theorem priceGroupAt_cons_digit (c : Char) (rest : List Char)
    (h : isDigitChar c = true) :
    priceGroupAt (c :: rest) =
      some (c :: (takeDigits rest).1 ++ priceSepPart (takeDigits rest).2) := by
  simp [priceGroupAt, takeDigits, h]

theorem priceGroupAt_cons_nondigit (c : Char) (rest : List Char)
    (h : isDigitChar c = false) :
    priceGroupAt (c :: rest) = none := by
  simp [priceGroupAt, takeDigits, h]

theorem priceGroupAt_none_iff (cs : List Char) :
    priceGroupAt cs = none ↔ ¬ ∃ d rest, cs = d :: rest ∧ isDigitChar d = true := by
  cases cs with
  | nil =>
    constructor
    · rintro - ⟨d, rest, h, -⟩; cases h
    · intro _; rfl
  | cons c rest =>
    cases hc : isDigitChar c with
    | true =>
      rw [priceGroupAt_cons_digit c rest hc]
      simp only [reduceCtorEq, false_iff, not_not]
      exact ⟨c, rest, rfl, hc⟩
    | false =>
      rw [priceGroupAt_cons_nondigit c rest hc]
      simp only [true_iff]
      rintro ⟨d, r, heq, hd⟩
      cases heq
      rw [hc] at hd
      cases hd

theorem dollarDigitOccurs_cons (c : Char) (cs : List Char) :
    dollarDigitOccurs (c :: cs) ↔
      (c = '$' ∧ ∃ d rest, cs = d :: rest ∧ isDigitChar d = true) ∨
      dollarDigitOccurs cs := by
  constructor
  · rintro ⟨pre, post, d, heq, hd⟩
    cases pre with
    | nil =>
      simp only [List.nil_append, List.cons.injEq] at heq
      exact Or.inl ⟨heq.1, d, post, heq.2, hd⟩
    | cons p pre' =>
      simp only [List.cons_append, List.cons.injEq] at heq
      exact Or.inr ⟨pre', post, d, heq.2, hd⟩
  · rintro (⟨hc, d, rest, heq, hd⟩ | ⟨pre, post, d, heq, hd⟩)
    · exact ⟨[], rest, d, by rw [hc, heq]; rfl, hd⟩
    · exact ⟨c :: pre, post, d, by rw [heq]; rfl, hd⟩

theorem searchPrice_none_iff (s : List Char) :
    searchPrice s = none ↔ ¬ dollarDigitOccurs s := by
  induction s with
  | nil =>
    simp only [searchPrice, true_iff]
    rintro ⟨pre, post, d, heq, -⟩
    cases pre <;> cases heq
  | cons c cs ih =>
    rw [searchPrice]
    by_cases hc : c = '$'
    · rw [if_pos hc]
      cases hg : priceGroupAt cs with
      | some g =>
        simp only [reduceCtorEq, false_iff, not_not]
        have hhead : ¬ ¬ ∃ d rest, cs = d :: rest ∧ isDigitChar d = true := by
          intro hno
          rw [← priceGroupAt_none_iff] at hno
          rw [hno] at hg
          cases hg
        rw [not_not] at hhead
        rw [dollarDigitOccurs_cons]
        exact Or.inl ⟨hc, hhead⟩
      | none =>
        rw [ih, dollarDigitOccurs_cons]
        have hhead := (priceGroupAt_none_iff cs).mp hg
        constructor
        · rintro hno (⟨-, hex⟩ | hocc)
          · exact hhead hex
          · exact hno hocc
        · intro hno hocc
          exact hno (Or.inr hocc)
    · rw [if_neg hc, ih, dollarDigitOccurs_cons]
      constructor
      · rintro hno (⟨hceq, -⟩ | hocc)
        · exact hc hceq
        · exact hno hocc
      · intro hno hocc
        exact hno (Or.inr hocc)

/-! ### Claim theorems -/

/-- Claim C1: for every snippet, when the price regex matches, the stored
estimated cost is the matched price (a `$` followed by capture group 1)
followed by `" USD"`; when it does not match, the estimated cost is the
literal `"N/A"`; and the regex matches exactly the snippets in which some
`$` is immediately followed by a decimal digit. -/
theorem extract_cost_spec (s : String) :
    (∀ g, searchPrice s.data = some g →
      extract_cost s = "$" ++ String.mk g ++ " USD") ∧
    (searchPrice s.data = none → extract_cost s = "N/A") ∧
    (searchPrice s.data = none ↔ ¬ dollarDigitOccurs s.data) := by
  refine ⟨?_, ?_, searchPrice_none_iff s.data⟩
  · intro g hg; simp [extract_cost, hg]
  · intro h; simp [extract_cost, h]

/-- Witness for C1: a snippet with the pattern `$1,299` yields
`"$1,299 USD"`, and a snippet without any `$`-digit pattern yields
`"N/A"`. -/
theorem extract_cost_spec_witness :
    extract_cost "Deluxe room $1,299 total" = "$1,299 USD" ∧
    extract_cost "call for rates" = "N/A" := by
  constructor
  · exact ((extract_cost_spec "Deluxe room $1,299 total").1 "1,299".data
      (by decide)).trans (by decide)
  · exact (extract_cost_spec "call for rates").2.1 (by decide)

/-- Claim C2: the constructed search query is
`"Budget friendly hotels in {location} from {check_in} to {check_out}"`
with no trailing budget suffix when `budget = "any"`, and that string with
`" {budget} hotels"` appended when `budget ≠ "any"`. -/
theorem build_query_spec (location check_in check_out budget : String) :
    (budget = "any" → build_query location check_in check_out budget =
      "Budget friendly hotels in " ++ location ++ " from " ++ check_in
        ++ " to " ++ check_out) ∧
    (budget ≠ "any" → build_query location check_in check_out budget =
      "Budget friendly hotels in " ++ location ++ " from " ++ check_in
        ++ " to " ++ check_out ++ " " ++ budget ++ " hotels") := by
  constructor
  · intro h; simp [build_query, h]
  · intro h; simp [build_query, h]

/-- Witness for C2: concrete queries for `budget = "any"` and
`budget = "luxury"`. -/
theorem build_query_spec_witness :
    build_query "Paris" "2024-07-15" "2024-07-22" "any" =
      "Budget friendly hotels in Paris from 2024-07-15 to 2024-07-22" ∧
    build_query "Paris" "2024-07-15" "2024-07-22" "luxury" =
      "Budget friendly hotels in Paris from 2024-07-15 to 2024-07-22 luxury hotels" := by
  constructor
  · exact ((build_query_spec "Paris" "2024-07-15" "2024-07-22" "any").1
      rfl).trans (by decide)
  · exact ((build_query_spec "Paris" "2024-07-15" "2024-07-22" "luxury").2
      (by decide)).trans (by decide)

/-- Claim C3: when the `SERPER_API_KEY` credential is absent, the search
tool returns the fixed error string (which contains
`"SERPER_API_KEY not found"`) and never issues the network request, for
every input and every possible network behavior. -/
theorem missing_key_no_network (net : String → NetResult)
    (location check_in check_out budget : String) (serper_api_key : Option String)
    (h : serper_api_key = none) :
    (hotel_search_run serper_api_key net location check_in check_out budget).result =
      "SERPER_API_KEY not found in environment variables" ∧
    "SERPER_API_KEY not found".data.isPrefixOf
      (hotel_search_run serper_api_key net location check_in check_out budget).result.data
      = true ∧
    (hotel_search_run serper_api_key net location check_in check_out budget).network_called
      = false := by
  subst h
  refine ⟨rfl, ?_, rfl⟩
  show "SERPER_API_KEY not found".data.isPrefixOf
    "SERPER_API_KEY not found in environment variables".data = true
  decide

/-- Witness for C3: with no key and a network oracle that would fail, the
error string is returned and the network flag stays false. -/
theorem missing_key_no_network_witness :
    (hotel_search_run none (fun _ => NetResult.exn "boom") "Paris" "2024-07-15"
      "2024-07-22" "any").result =
      "SERPER_API_KEY not found in environment variables" ∧
    "SERPER_API_KEY not found".data.isPrefixOf
      (hotel_search_run none (fun _ => NetResult.exn "boom") "Paris" "2024-07-15"
        "2024-07-22" "any").result.data = true ∧
    (hotel_search_run none (fun _ => NetResult.exn "boom") "Paris" "2024-07-15"
      "2024-07-22" "any").network_called = false :=
  missing_key_no_network (fun _ => NetResult.exn "boom") "Paris" "2024-07-15"
    "2024-07-22" "any" none rfl

/-- Claim C4: the booking id is the fixed prefix `"HB"`, then today's date
as `YYYYMMDD`, then a 4-character block of decimal digits whose value is
the content hash of the hotel name reduced modulo 10000 (a residue in
`[0, 9999]`, zero-padded). -/
theorem booking_id_structure (pyhash : String → Int) (today : PyDate)
    (hotel_name : String) :
    ∃ hashPart : List Char,
      hotel_booking_id pyhash today hotel_name =
        "HB" ++ String.mk (strftimeYMD today) ++ String.mk hashPart ∧
      hashPart.length = 4 ∧
      (∀ c ∈ hashPart, isDigitChar c = true) ∧
      (decValue hashPart : Int) = pyhash hotel_name % 10000 ∧
      0 ≤ pyhash hotel_name % 10000 ∧ pyhash hotel_name % 10000 < 10000 := by
  have h0 : (0:Int) ≤ pyhash hotel_name % 10000 :=
    Int.emod_nonneg _ (by norm_num)
  have h1 : pyhash hotel_name % 10000 < 10000 :=
    Int.emod_lt_of_pos _ (by norm_num)
  have hlt : (pyhash hotel_name % 10000).toNat < 10 ^ 4 := by
    have hp : (10:Nat) ^ 4 = 10000 := by norm_num
    omega
  refine ⟨zeroPad 4 (pyhash hotel_name % 10000).toNat, rfl, ?_, ?_, ?_, h0, h1⟩
  · exact zeroPad_length 4 _ (by omega) hlt
  · exact zeroPad_digits 4 _
  · rw [decValue_zeroPad]
    exact Int.toNat_of_nonneg h0

/-- Claim C5: the booking id depends only on the hash function, the day,
and the hotel name — two bookings of the same hotel on the same day agree
on the id no matter the check-in, check-out or guest count. -/
theorem booking_id_deterministic (pyhash : String → Int) (today : PyDate)
    (hotel_name ci co ci2 co2 : String) (g g2 : Int) :
    (hotel_booking_run pyhash today hotel_name ci co g).booking_id =
    (hotel_booking_run pyhash today hotel_name ci2 co2 g2).booking_id := rfl

/-- Claim C6: for every input — including inverted date ranges and zero
guests — the booking simulator totally succeeds with `status = "confirmed"`
and echoes the inputs unvalidated; it consults no external system (the
function is pure in its explicit arguments). -/
theorem booking_always_confirmed (pyhash : String → Int) (today : PyDate)
    (hotel_name check_in check_out : String) (guests : Int) :
    (hotel_booking_run pyhash today hotel_name check_in check_out guests).status
      = "confirmed" ∧
    (hotel_booking_run pyhash today hotel_name check_in check_out guests).hotel_name
      = hotel_name ∧
    (hotel_booking_run pyhash today hotel_name check_in check_out guests).check_in
      = check_in ∧
    (hotel_booking_run pyhash today hotel_name check_in check_out guests).check_out
      = check_out ∧
    (hotel_booking_run pyhash today hotel_name check_in check_out guests).guests
      = guests :=
  ⟨rfl, rfl, rfl, rfl, rfl⟩

/-- Claim C7: when the parsed response has an `"organic"` array, the
result list is built from exactly its first five elements (fewer if the
array is shorter), in order, with `title → name`, `snippet → description`,
`link → link` (each defaulting to the empty string when absent). -/
theorem search_items_spec (data : SerperData) (results : List SerperResult)
    (location check_in check_out budget : String)
    (h : data.organic = some results) :
    (search_items data location check_in check_out budget).length
      = min 5 results.length ∧
    ∀ i : Nat, i < 5 → ∀ hi : i < results.length,
      (search_items data location check_in check_out budget)[i]? =
        some { name := results[i].title.getD ""
               description := results[i].snippet.getD ""
               link := results[i].link.getD ""
               location := location
               check_in := check_in
               check_out := check_out
               budget := budget
               estimated_cost_usd := extract_cost (results[i].snippet.getD "") } := by
  constructor
  · simp [search_items, h]
  · intro i h5 hi
    simp only [search_items, h]
    rw [List.getElem?_map, List.getElem?_take, if_pos h5,
      List.getElem?_eq_getElem hi]
    simp [mkSearchItem]

/-- Witness for C7: a one-element organic array produces the corresponding
single item, with the price extracted from the snippet. -/
theorem search_items_spec_witness :
    (search_items
      { organic := some [{ title := some "Hotel A", link := some "http://a",
                           snippet := some "Rooms from $120 per night" }] }
      "Paris" "2024-07-15" "2024-07-22" "any")[0]? =
      some { name := "Hotel A", description := "Rooms from $120 per night",
             link := "http://a", location := "Paris", check_in := "2024-07-15",
             check_out := "2024-07-22", budget := "any",
             estimated_cost_usd := "$120 USD" } := by
  have h := (search_items_spec
    { organic := some [{ title := some "Hotel A", link := some "http://a",
                         snippet := some "Rooms from $120 per night" }] }
    [{ title := some "Hotel A", link := some "http://a",
       snippet := some "Rooms from $120 per night" }]
    "Paris" "2024-07-15" "2024-07-22" "any" rfl).2 0 (by decide) (by decide)
  exact h.trans (by decide)

/-- Claim C8: the `/plan` handler wraps a successful plan as
`{"plan": plan}` and converts any exception into a 500 error whose detail
is `"Error: "` followed by the exception text. -/
theorem plan_trip_spec (planner : String → PlannerOutcome) (message : String) :
    (∀ e, planner message = PlannerOutcome.exn e →
      plan_trip planner message =
        Except.error { status_code := 500, detail := "Error: " ++ e }) ∧
    (∀ p, planner message = PlannerOutcome.ok p →
      plan_trip planner message = Except.ok { plan := p }) := by
  constructor
  · intro e he; simp [plan_trip, he]
  · intro p hp; simp [plan_trip, hp]

/-- Witness for C8: a raising planner yields the 500 error with the
embedded text and a succeeding planner yields the wrapped plan. -/
theorem plan_trip_spec_witness :
    plan_trip (fun _ => PlannerOutcome.exn "boom") "trip to Paris" =
      Except.error { status_code := 500, detail := "Error: " ++ "boom" } ∧
    plan_trip (fun _ => PlannerOutcome.ok "itinerary") "trip to Paris" =
      Except.ok { plan := "itinerary" } :=
  ⟨(plan_trip_spec (fun _ => PlannerOutcome.exn "boom") "trip to Paris").1
      "boom" rfl,
    (plan_trip_spec (fun _ => PlannerOutcome.ok "itinerary") "trip to Paris").2
      "itinerary" rfl⟩

/-- Claim C9: when the key is configured and the provider's response
parses but carries no `"organic"` key, the tool returns the serialization
of the empty list — the two-character string `"[]"` — as a success value,
with the network request having been made. -/
theorem no_organic_empty_list (serper_api_key : Option String)
    (net : String → NetResult) (location check_in check_out budget : String)
    (data : SerperData)
    (hkey : (serper_api_key.getD "").isEmpty = false)
    (hnet : net (build_query location check_in check_out budget) = NetResult.ok data)
    (horg : data.organic = none) :
    (hotel_search_run serper_api_key net location check_in check_out budget).result
      = "[]" ∧
    (hotel_search_run serper_api_key net location check_in check_out budget).network_called
      = true := by
  simp [hotel_search_run, hkey, hnet, search_items, horg, dumpItems]

/-- Witness for C9: a configured key with a parsed response lacking
`"organic"` yields exactly `"[]"`. -/
theorem no_organic_empty_list_witness :
    (hotel_search_run (some "k") (fun _ => NetResult.ok { organic := none })
      "Paris" "2024-07-15" "2024-07-22" "any").result = "[]" ∧
    (hotel_search_run (some "k") (fun _ => NetResult.ok { organic := none })
      "Paris" "2024-07-15" "2024-07-22" "any").network_called = true :=
  no_organic_empty_list (some "k") (fun _ => NetResult.ok { organic := none })
    "Paris" "2024-07-15" "2024-07-22" "any" { organic := none } rfl rfl rfl

/-- Claim C10: every booking id is exactly 14 characters: the prefix
`"HB"`, then 8 date digits, then exactly 4 decimal digits for the hash
residue. -/
theorem booking_id_shape (pyhash : String → Int) (today : PyDate)
    (hotel_name : String) :
    (hotel_booking_id pyhash today hotel_name).length = 14 ∧
    ∃ datePart hashPart : List Char,
      hotel_booking_id pyhash today hotel_name =
        String.mk ('H' :: 'B' :: (datePart ++ hashPart)) ∧
      datePart.length = 8 ∧ hashPart.length = 4 ∧
      (∀ c ∈ datePart, isDigitChar c = true) ∧
      (∀ c ∈ hashPart, isDigitChar c = true) := by
  have h0 : (0:Int) ≤ pyhash hotel_name % 10000 :=
    Int.emod_nonneg _ (by norm_num)
  have h1 : pyhash hotel_name % 10000 < 10000 :=
    Int.emod_lt_of_pos _ (by norm_num)
  have hp4 : (10:Nat) ^ 4 = 10000 := by norm_num
  have hp2 : (10:Nat) ^ 2 = 100 := by norm_num
  have hlt : (pyhash hotel_name % 10000).toNat < 10 ^ 4 := by omega
  have hy : today.year < 10 ^ 4 := by have := today.year_le; omega
  have hm : today.month < 10 ^ 2 := by have := today.month_le; omega
  have hd : today.day < 10 ^ 2 := by have := today.day_le; omega
  have hdate : (strftimeYMD today).length = 8 := by
    simp only [strftimeYMD, List.length_append]
    rw [zeroPad_length 4 _ (by omega) hy, zeroPad_length 2 _ (by omega) hm,
      zeroPad_length 2 _ (by omega) hd]
  have hhash : (zeroPad 4 (pyhash hotel_name % 10000).toNat).length = 4 :=
    zeroPad_length 4 _ (by omega) hlt
  have heq : hotel_booking_id pyhash today hotel_name =
      String.mk ('H' :: 'B' ::
        (strftimeYMD today ++ zeroPad 4 (pyhash hotel_name % 10000).toNat)) := by
    rw [hotel_booking_id, hb_append]
  refine ⟨?_, strftimeYMD today, zeroPad 4 (pyhash hotel_name % 10000).toNat,
    heq, hdate, hhash, ?_, zeroPad_digits 4 _⟩
  · rw [heq, length_mkString]
    simp only [List.length_cons, List.length_append]
    omega
  · intro c hc
    simp only [strftimeYMD, List.mem_append] at hc
    rcases hc with (h | h) | h
    · exact zeroPad_digits 4 _ c h
    · exact zeroPad_digits 2 _ c h
    · exact zeroPad_digits 2 _ c h

end TravelPlanning
